import Mathlib

/-!
Shallow embedding of `src/tuono_resolution_suggest_downscale.py`
(ComfyUI-Resolution-Suggest-Downscale), the `TuonoResolutionSuggestDownscale`
node. Python integers are modelled as `Int`; Python floats are modelled as
exact rationals `ℚ` (the scale literals involved, such as
`1.0 - 30.0/100.0 = 0.7`, round-trip exactly through binary doubles at the
inputs the claims exercise); Python `round` (round half to even) is modelled
by `pyround`; Python `//` (floor division) by `Int.fdiv`. Python string
operations (`startswith`, `in`, `lower`, `strip`, `split`) are modelled
structurally on `List Char`, which coincides with Python semantics on the
ASCII strings this module manipulates. The image argument of `calc` only
contributes `shape[1]`/`shape[2]` and is otherwise passed through unchanged,
so the embedding takes height and width directly and returns the
`(width, height, info)` part of the result tuple.
-/

namespace TRSD

/-- Python `str.startswith`: is the first list a prefix of the second? -/
def isPrefixL : List Char → List Char → Bool
  | [], _ => true
  | _ :: _, [] => false
  | a :: as, b :: bs => a == b && isPrefixL as bs

/-- Python `pat in s` on strings: substring containment. -/
def containsL (pat : List Char) : List Char → Bool
  | [] => pat.isEmpty
  | b :: rest => isPrefixL pat (b :: rest) || containsL pat rest

/-- Python `str.lower` (ASCII inputs only in this module). -/
def lowerL (s : List Char) : List Char := s.map Char.toLower

/-- Python `str.split(sep)` for a one-character separator. -/
def splitOnCharL (c : Char) : List Char → List (List Char)
  | [] => [[]]
  | a :: rest =>
    let r := splitOnCharL c rest
    if a == c then [] :: r
    else
      match r with
      | [] => [[a]]
      | hd :: tl => (a :: hd) :: tl

/-- Python `str.split(sep, 1)` for a one-character separator: split at the
first occurrence, `none` when the character does not occur. -/
def splitFirstL (c : Char) : List Char → Option (List Char × List Char)
  | [] => none
  | a :: rest =>
    if a == c then some ([], rest)
    else (splitFirstL c rest).map (fun p => (a :: p.1, p.2))

/-- Python `str.strip` (whitespace at both ends; the table only uses ' '). -/
def stripL (s : List Char) : List Char :=
  ((s.dropWhile Char.isWhitespace).reverse.dropWhile Char.isWhitespace).reverse

/-- Python `s.split(sep)[0]` for a multi-character separator: everything
before the first occurrence of `sep` (the whole string when absent). -/
def takeBeforeSub (sep : List Char) : List Char → List Char
  | [] => []
  | a :: rest => if isPrefixL sep (a :: rest) then [] else a :: takeBeforeSub sep rest

/-- Decimal-digit accumulator for `parseIntL`. -/
def parseNatAux : List Char → Nat → Option Nat
  | [], acc => some acc
  | c :: rest, acc =>
    if c.isDigit then parseNatAux rest (acc * 10 + (c.toNat - 48)) else none

/-- Python `int(s)` on an already-stripped string: optional sign followed by
decimal digits; `none` models the `ValueError` the source catches. -/
def parseIntL (s : List Char) : Option Int :=
  match s with
  | [] => none
  | c :: rest =>
    if c == '-' then
      match rest with
      | [] => none
      | _ => (parseNatAux rest 0).map (fun n => -(n : Int))
    else if c == '+' then
      match rest with
      | [] => none
      | _ => (parseNatAux rest 0).map (fun n => (n : Int))
    else (parseNatAux s 0).map (fun n => (n : Int))

/-- Python's built-in `round`: round half to even (banker's rounding). -/
def pyround (q : ℚ) : Int :=
  if q - ⌊q⌋ < 1/2 then ⌊q⌋
  else if 1/2 < q - ⌊q⌋ then ⌊q⌋ + 1
  else if ⌊q⌋ % 2 = 0 then ⌊q⌋ else ⌊q⌋ + 1

/-- `_snap_dim(self, value, multiple)`: floor `value` to a multiple of
`multiple`; non-positive input, or a floored result below one unit, yields
`multiple` itself. -/
def snap_dim (value : Int) (multiple : Int) : Int :=
  if value ≤ 0 then multiple
  else
    let v := value
    let snapped := (Int.fdiv v multiple) * multiple
    if snapped < multiple then multiple else snapped

/-- `_profile_to_multiple(self, model_profile)`: map the dropdown string to
`(multiple_of, profile_label)` by `startswith` tests, falling back to
`(8, "SD / General (8)")`. -/
def profile_to_multiple (model_profile : String) : Int × String :=
  if isPrefixL ("multiple_of: 8".toList) model_profile.toList then
    (8, "SD / General (8)")
  else if isPrefixL ("multiple_of: 16".toList) model_profile.toList then
    (16, "WAN 2.2 / Strict (16)")
  else if isPrefixL ("multiple_of: 32".toList) model_profile.toList then
    (32, "Video / Advanced (32)")
  else if isPrefixL ("multiple_of: 64".toList) model_profile.toList then
    (64, "Legacy / Extra Safe (64)")
  else (8, "SD / General (8)")

/-- `_scale_from_percentage_preset(self, scale_preset)`: convert a percentage
preset string to `(reduction_percent, scale)` by `startswith` tests, with
`scale = 1 - reduction/100` floored at `0.1`. -/
def scale_from_percentage_preset (scale_preset : String) : ℚ × ℚ :=
  let reduction : ℚ :=
    if isPrefixL ("0%".toList) scale_preset.toList then 0
    else if isPrefixL ("10%".toList) scale_preset.toList then 10
    else if isPrefixL ("20%".toList) scale_preset.toList then 20
    else if isPrefixL ("30%".toList) scale_preset.toList then 30
    else if isPrefixL ("40%".toList) scale_preset.toList then 40
    else if isPrefixL ("50%".toList) scale_preset.toList then 50
    else if isPrefixL ("60%".toList) scale_preset.toList then 60
    else 0
  let scale : ℚ := 1 - reduction / 100
  let scale := if scale < 1/10 then 1/10 else scale
  (reduction, scale)

/-- `_scale_and_snap(self, w, h, scale, multiple_of)`: scale both axes,
round, snap each to `multiple_of`, and re-snap the original dimension
whenever the snapped value exceeds it. Returns
`(snapped_w, snapped_h, round(raw_w), round(raw_h))`. -/
def scale_and_snap (w h : Int) (scale : ℚ) (multiple_of : Int) :
    Int × Int × Int × Int :=
  let raw_w : ℚ := (w : ℚ) * scale
  let raw_h : ℚ := (h : ℚ) * scale
  let snapped_w := snap_dim (pyround raw_w) multiple_of
  let snapped_h := snap_dim (pyround raw_h) multiple_of
  let snapped_w := if snapped_w > w then snap_dim w multiple_of else snapped_w
  let snapped_h := if snapped_h > h then snap_dim h multiple_of else snapped_h
  (snapped_w, snapped_h, pyround raw_w, pyround raw_h)

/-- `_get_common_resolution_table(self)`: the dict literal, kept in source
order with its duplicate keys (`(1024,1024)`, `(1152,896)`, `(832,1216)`
each appear twice; Python dict literals let the later entry win, which
`tableLookup` reproduces by searching the reversed list). -/
def common_resolution_table : List ((Int × Int) × String) :=
  [ ((3840, 2160), "2560x1440, 1920x1080, 1280x720, 960x540, 854x480"),
    ((3440, 1440), "2560x1080, 2560x1440, 1920x810, 1600x720, 1280x540"),
    ((2560, 1440), "1920x1080, 1600x900, 1280x720, 1024x576, 960x540"),
    ((2560, 1080), "1920x810, 1920x800, 1600x900, 1280x720, 1024x576"),
    ((2048, 1152), "1920x1080, 1600x900, 1280x720, 1024x576, 960x540"),
    ((1024, 1024), "896x896, 768x768, 640x640"),
    ((1152, 896), "1024x800, 960x768, 896x736"),
    ((896, 1152), "768x992, 672x864, 576x736"),
    ((1216, 832), "1152x768, 1024x704, 896x640"),
    ((832, 1216), "768x1120, 704x1024, 640x928"),
    ((1344, 768), "1216x704, 1152x672, 1024x576"),
    ((768, 1344), "704x1216, 672x1152, 576x1024"),
    ((1536, 640), "1344x576, 1216x512, 1024x448"),
    ((640, 1536), "576x1344, 512x1216, 448x1024"),
    ((640, 960), "576x864, 512x768, 480x720"),
    ((768, 1152), "704x1056, 640x960, 576x864"),
    ((800, 1200), "704x1056, 640x960, 576x864"),
    ((832, 1216), "768x1120, 704x1024, 640x928"),
    ((1920, 1080), "1600x900, 1536x864, 1280x720, 1024x576, 960x540"),
    ((1720, 720), "1600x720, 1280x720, 1024x576, 960x540, 854x480"),
    ((1680, 1050), "1600x900, 1440x900, 1280x800, 1280x720, 1024x640"),
    ((1600, 900), "1440x810, 1280x720, 1024x576"),
    ((1536, 864), "1440x810, 1280x720, 1024x576"),
    ((1366, 768), "1280x720, 1152x648, 1024x576"),
    ((1360, 768), "1280x720, 1152x648, 1024x576"),
    ((1280, 720), "1152x648, 1024x576, 960x540"),
    ((1270, 720), "1152x648, 1024x576, 960x540"),
    ((1024, 576), "960x540, 854x480, 768x432"),
    ((960, 540), "854x480, 848x480, 800x450"),
    ((854, 480), "800x450, 768x432, 640x360"),
    ((848, 480), "800x450, 768x432, 640x360"),
    ((800, 450), "768x432, 720x405, 640x360"),
    ((720, 405), "640x360, 576x324, 512x288"),
    ((640, 360), "576x324, 512x288, 426x240"),
    ((426, 240), "400x225, 384x216, 320x180"),
    ((2048, 2048), "1536x1536, 1024x1024, 768x768"),
    ((1536, 1536), "1280x1280, 1024x1024, 768x768"),
    ((1280, 1280), "1024x1024, 896x896, 768x768"),
    ((1024, 1024), "896x896, 768x768, 640x640"),
    ((896, 896), "768x768, 704x704, 640x640"),
    ((768, 768), "640x640, 576x576, 512x512"),
    ((640, 640), "576x576, 512x512, 480x480"),
    ((512, 512), "448x448, 384x384, 320x320"),
    ((1080, 1920), "900x1600, 720x1280, 540x960"),
    ((720, 1280), "640x1138, 540x960, 480x853"),
    ((640, 1136), "576x1024, 540x960, 480x853"),
    ((1152, 896), "1024x800, 960x768, 896x672") ]

/-- Python `key in table` / `table[key]` on the dict built from
`common_resolution_table` (later duplicates overwrite earlier ones). -/
def tableLookup (w h : Int) : Option String :=
  (common_resolution_table.reverse.find?
    (fun e => e.1.1 == w && e.1.2 == h)).map Prod.snd

/-- `_parse_res_list(self, text)`: split on commas, strip, split each part at
its first `x`, parse both sides as ints, skipping malformed parts. -/
def parse_res_list (text : String) : List (Int × Int) :=
  (splitOnCharL ',' text.toList).filterMap (fun part =>
    let p := stripL part
    match splitFirstL 'x' p with
    | none => none
    | some (wp, hp) =>
      match parseIntL (stripL wp), parseIntL (stripL hp) with
      | some a, some b => some (a, b)
      | _, _ => none)

/-- `_static_resolution_suggestions(self, current_w, current_h, multiple_of)`:
the informational line listing the exact-match table entries plus the
50%-scaled fallback. -/
def static_resolution_suggestions (current_w current_h multiple_of : Int) :
    String :=
  let base :=
    match tableLookup current_w current_h with
    | some text => "suggested/common resolutions: " ++ text
    | none => "suggested/common resolutions: (no static entries for this input size)"
  let r := scale_and_snap current_w current_h (1/2) multiple_of
  let low := "less common lower resolution (same aspect ratio): " ++
    toString r.1 ++ "x" ++ toString r.2.1
  base ++ " | " ++ low

/-- `_get_suggestion_target(self, w, h, multiple_of, scale_preset)`: rank 4
always scales by 0.5; ranks 1-3 use the static table entry (index clamped to
the last element) with the same never-exceed-original re-snap, and fall back
to scales 0.8 / 0.7 / 0.6 when the table has no entry for `(w, h)`. -/
def get_suggestion_target (w h multiple_of : Int) (scale_preset : String) :
    Int × Int × Int × Int :=
  let preset_lower := lowerL scale_preset.toList
  if containsL ("suggestion 4".toList) preset_lower ||
      containsL ("very low vram".toList) preset_lower then
    scale_and_snap w h (1/2) multiple_of
  else
    let suggestions : List (Int × Int) :=
      match tableLookup w h with
      | some text => parse_res_list text
      | none => []
    let idx : Option Nat :=
      if containsL ("suggestion 1".toList) preset_lower then some 0
      else if containsL ("suggestion 2".toList) preset_lower then some 1
      else if containsL ("suggestion 3".toList) preset_lower then some 2
      else none
    match suggestions, idx with
    | t :: ts, some i =>
      let target :=
        if i < (t :: ts).length then (t :: ts).getD i (0, 0)
        else (t :: ts).getLast (List.cons_ne_nil t ts)
      let snapped_w := snap_dim target.1 multiple_of
      let snapped_h := snap_dim target.2 multiple_of
      let snapped_w := if snapped_w > w then snap_dim w multiple_of else snapped_w
      let snapped_h := if snapped_h > h then snap_dim h multiple_of else snapped_h
      (snapped_w, snapped_h, target.1, target.2)
    | _, _ =>
      let scale : ℚ :=
        if containsL ("suggestion 1".toList) preset_lower then 8/10
        else if containsL ("suggestion 2".toList) preset_lower then 7/10
        else if containsL ("suggestion 3".toList) preset_lower then 6/10
        else 1/2
      scale_and_snap w h scale multiple_of

/-- Python `"{:.df}".format(q)` on the per-call diagnostic numbers: fixed
decimal rendering with `d` digits, round half to even. -/
def formatFixed (q : ℚ) (d : Nat) : String :=
  let n := pyround (q * (10 : ℚ) ^ d)
  let na := n.natAbs
  let ip := na / 10 ^ d
  let fp := na % 10 ^ d
  let fpStr := toString fp
  let pad := String.mk (List.replicate (d - fpStr.length) '0')
  (if n < 0 then "-" else "") ++ toString ip ++
    (if d = 0 then "" else "." ++ pad ++ fpStr)

/-- The strategy dispatch inside `calc`: the six values
`(new_w, new_h, raw_w, raw_h, reduction_percent, scale)` computed by the
`if is_suggestion ... else ...` block (the suggestion path derives the scale
post hoc from `new_w / w`). -/
def calc_core (w h multiple_of : Int) (scale_preset : String) :
    Int × Int × Int × Int × ℚ × ℚ :=
  if isPrefixL ("Resolution suggestion".toList) scale_preset.toList then
    let r := get_suggestion_target w h multiple_of scale_preset
    let scale : ℚ := if w > 0 then (r.1 : ℚ) / (w : ℚ) else 1
    (r.1, r.2.1, r.2.2.1, r.2.2.2, (1 - scale) * 100, scale)
  else
    let rs := scale_from_percentage_preset scale_preset
    let r := scale_and_snap w h rs.2 multiple_of
    (r.1, r.2.1, r.2.2.1, r.2.2.2, rs.1, rs.2)

/-- `calc(self, image, model_profile, scale_preset)`: the top-level entry.
The image contributes only `h = shape[1]`, `w = shape[2]` and is passed
through unchanged, so the embedding takes `w`, `h` directly and returns the
`(width, height, info)` components. -/
def «calc» (w h : Int) (model_profile scale_preset : String) :
    Int × Int × String :=
  if h ≤ 0 ∨ w ≤ 0 then
    (w, h, "Invalid image size – cannot calculate.")
  else
    let pm := profile_to_multiple model_profile
    let multiple_of := pm.1
    let profile_label := pm.2
    let c := calc_core w h multiple_of scale_preset
    let new_w := c.1
    let new_h := c.2.1
    let raw_w := c.2.2.1
    let raw_h := c.2.2.2.1
    let reduction_percent := c.2.2.2.2.1
    let scale := c.2.2.2.2.2
    let simple_preset := String.mk (takeBeforeSub (" (".toList) scale_preset.toList)
    let suggestions_info := static_resolution_suggestions w h multiple_of
    let lines := [
      "multiple_of: " ++ toString multiple_of ++ " (" ++ profile_label ++ ")",
      "scale_preset=" ++ simple_preset ++ ", reduction≈" ++
        formatFixed reduction_percent 1 ++ "% (scale≈" ++ formatFixed scale 4 ++ ")",
      "input image: " ++ toString w ++ "x" ++ toString h,
      "result: raw " ++ toString raw_w ++ "x" ++ toString raw_h ++
        " -> snapped " ++ toString new_w ++ "x" ++ toString new_h,
      suggestions_info ]
    (new_w, new_h, String.intercalate (" | ") lines)

/-! ### Helper lemmas about the embedded operations -/

theorem snap_dim_dvd (v m : Int) : m ∣ snap_dim v m := by
  unfold snap_dim
  split
  · exact dvd_refl m
  · dsimp only
    split
    · exact dvd_refl m
    · exact dvd_mul_left m (Int.fdiv v m)

theorem le_snap_dim (v m : Int) : m ≤ snap_dim v m := by
  unfold snap_dim
  split
  · exact le_refl m
  · dsimp only
    split
    · exact le_refl m
    · exact le_of_not_lt (by assumption)

theorem snap_dim_le (v m : Int) (hv : 0 < v) (hm : 0 < m) (hmv : m ≤ v) :
    snap_dim v m ≤ v := by
  unfold snap_dim
  rw [if_neg (not_le.mpr hv)]
  dsimp only
  split
  · exact hmv
  · rw [Int.fdiv_eq_ediv v hm.le]
    exact Int.ediv_mul_le v (ne_of_gt hm)

theorem snap_dim_of_lt (v m : Int) (hm : 0 < m) (hvm : v < m) :
    snap_dim v m = m := by
  unfold snap_dim
  by_cases hv : v ≤ 0
  · rw [if_pos hv]
  · rw [if_neg hv]
    dsimp only
    rw [Int.fdiv_eq_ediv v hm.le,
        Int.ediv_eq_zero_of_lt (le_of_not_le hv) hvm]
    simp [hm]

theorem snap_dim_floor_dist (v m : Int) (hm : 0 < m) (hmv : m ≤ v) :
    v - snap_dim v m < m := by
  have hv : 0 < v := lt_of_lt_of_le hm hmv
  unfold snap_dim
  rw [if_neg (not_le.mpr hv)]
  dsimp only
  rw [Int.fdiv_eq_ediv v hm.le]
  have h1 : (1 : Int) ≤ v / m :=
    (Int.le_ediv_iff_mul_le hm).mpr (by simpa using hmv)
  have hnl : ¬ v / m * m < m := by
    apply not_lt.mpr
    calc m = 1 * m := (one_mul m).symm
    _ ≤ v / m * m := mul_le_mul_of_nonneg_right h1 hm.le
  rw [if_neg hnl]
  have h2 : v % m = v - v / m * m := by
    rw [Int.emod_def]; ring
  rw [← h2]
  exact Int.emod_lt_of_pos v hm

theorem pyround_intCast (n : Int) : pyround (n : ℚ) = n := by
  unfold pyround
  rw [Int.floor_intCast]
  norm_num

theorem pyround_le_intCast {q : ℚ} {c : Int} (h : q ≤ (c : ℚ)) :
    pyround q ≤ c := by
  have hf : ⌊q⌋ ≤ c := by
    have h2 := Int.floor_le_floor h
    rwa [Int.floor_intCast] at h2
  unfold pyround
  by_cases h1 : q - ⌊q⌋ < 1/2
  · rw [if_pos h1]; exact hf
  · rw [if_neg h1]
    have hlt : ⌊q⌋ + 1 ≤ c := by
      rcases lt_or_eq_of_le hf with h2 | h2
      · omega
      · exfalso
        apply h1
        have h3 : q - (⌊q⌋ : ℚ) ≤ 0 := by
          rw [h2]
          exact sub_nonpos.mpr h
        linarith
    split
    · exact hlt
    · split
      · exact hf
      · exact hlt

/-- Evaluation shape for `scale_and_snap` once the two raw products are known
to be exact integers. -/
theorem scale_and_snap_eval (w h m : Int) (s : ℚ) (a b : Int)
    (ha : (w : ℚ) * s = (a : ℚ)) (hb : (h : ℚ) * s = (b : ℚ)) :
    scale_and_snap w h s m =
      (if snap_dim a m > w then snap_dim w m else snap_dim a m,
       if snap_dim b m > h then snap_dim h m else snap_dim b m, a, b) := by
  unfold scale_and_snap
  dsimp only
  rw [ha, hb, pyround_intCast, pyround_intCast]

/-- The "30% smaller" dropdown preset resolves to reduction 30 and scale
`0.7`. -/
theorem thirty_preset_eval :
    scale_from_percentage_preset
      ("30% smaller (1920x1080→1344x756, 1280x720→896x504)") = (30, 7/10) := by
  have h0 : isPrefixL ("0%".toList)
      ("30% smaller (1920x1080→1344x756, 1280x720→896x504)").toList = false := by decide
  have h10 : isPrefixL ("10%".toList)
      ("30% smaller (1920x1080→1344x756, 1280x720→896x504)").toList = false := by decide
  have h20 : isPrefixL ("20%".toList)
      ("30% smaller (1920x1080→1344x756, 1280x720→896x504)").toList = false := by decide
  have h30 : isPrefixL ("30%".toList)
      ("30% smaller (1920x1080→1344x756, 1280x720→896x504)").toList = true := by decide
  unfold scale_from_percentage_preset
  simp only [h0, h10, h20, h30]
  norm_num

/-- Scaling 1280x720 by 0.7 and snapping to 16 yields snapped (896, 496) and
raw rounded (896, 504). -/
theorem scale_and_snap_1280_720 :
    scale_and_snap 1280 720 (7/10) 16 = (896, 496, 896, 504) := by
  rw [scale_and_snap_eval 1280 720 16 (7/10) 896 504 (by norm_num) (by norm_num)]
  decide

/-- C1, counterexample: at w = h = 4, scale = 1 ∈ (0,1], multiple_of = 8,
`scaleAndSnap` returns width 8 > 4, so the snapped output exceeds the input
even after the re-snap clamp. -/
theorem c1_counterexample :
    (0:ℚ) < 1 ∧ (1:ℚ) ≤ 1 ∧ (0:Int) < 4 ∧
    ((8:Int) = 8 ∨ (8:Int) = 16 ∨ (8:Int) = 32 ∨ (8:Int) = 64) ∧
    ¬ ((scale_and_snap 4 4 1 8).1 ≤ 4 ∧ (scale_and_snap 4 4 1 8).2.1 ≤ 4) := by
  have he : scale_and_snap 4 4 1 8 = (8, 8, 4, 4) := by
    rw [scale_and_snap_eval 4 4 8 1 4 4 (by norm_num) (by norm_num)]
    decide
  exact ⟨one_pos, le_refl 1, by decide, Or.inl rfl, by rw [he]; decide⟩

/-- C1 (amended): for inputs at least one granularity unit on each axis
(`multiple_of ≤ w` and `multiple_of ≤ h`) and any scale in (0,1], the
snapped pair returned by `scaleAndSnap` never exceeds the input on either
axis. -/
theorem scale_and_snap_no_upscale (w h m : Int) (scale : ℚ)
    (hm : m = 8 ∨ m = 16 ∨ m = 32 ∨ m = 64)
    (hw : m ≤ w) (hh : m ≤ h) (hs0 : 0 < scale) (hs1 : scale ≤ 1) :
    (scale_and_snap w h scale m).1 ≤ w ∧ (scale_and_snap w h scale m).2.1 ≤ h := by
  have hm0 : 0 < m := by rcases hm with h1|h1|h1|h1 <;> omega
  have hw0 : 0 < w := lt_of_lt_of_le hm0 hw
  have hh0 : 0 < h := lt_of_lt_of_le hm0 hh
  unfold scale_and_snap
  dsimp only
  constructor
  · split
    · exact snap_dim_le w m hw0 hm0 hw
    · exact le_of_not_lt (by assumption)
  · split
    · exact snap_dim_le h m hh0 hm0 hh
    · exact le_of_not_lt (by assumption)

theorem scale_and_snap_no_upscale_witness :
    (scale_and_snap 16 16 1 8).1 ≤ 16 ∧ (scale_and_snap 16 16 1 8).2.1 ≤ 16 :=
  scale_and_snap_no_upscale 16 16 8 1 (Or.inl rfl) (by decide) (by decide)
    one_pos (le_refl 1)

/-- C2, counterexample: the "30% smaller" preset has scale 0.7, but on
1280x720 with multiple_of = 16 the snapped pair is (896, 496), not the
claimed (896, 504): 504 is not a multiple of 16. -/
theorem c2_counterexample :
    scale_from_percentage_preset
      ("30% smaller (1920x1080→1344x756, 1280x720→896x504)") = (30, 7/10) ∧
    ((scale_and_snap 1280 720 (7/10) 16).1,
      (scale_and_snap 1280 720 (7/10) 16).2.1) ≠ (896, 504) := by
  refine ⟨thirty_preset_eval, ?_⟩
  rw [scale_and_snap_1280_720]
  decide

/-- C2 (amended): the "30% smaller" preset (scale 0.7) on 1280x720 with
multiple_of = 16 yields the snapped pair (896, 496); the documented 896x504
is the raw rounded pair before snapping. -/
theorem thirty_percent_1280_720_result :
    scale_from_percentage_preset
      ("30% smaller (1920x1080→1344x756, 1280x720→896x504)") = (30, 7/10) ∧
    scale_and_snap 1280 720 (7/10) 16 = (896, 496, 896, 504) :=
  ⟨thirty_preset_eval, scale_and_snap_1280_720⟩

/-- C3, counterexample: at value 5, multiple 8, `snap` returns 8, which
exceeds the value, so the result is not the nearest multiple of 8 not
exceeding 5. -/
theorem c3_counterexample : snap_dim 5 8 = 8 ∧ ¬ (snap_dim 5 8 ≤ 5) := by
  decide

/-- C3 (amended): `snap` always returns a positive multiple of `multiple`;
for `value ≥ multiple` it is the greatest multiple not exceeding `value`
(floor semantics); for `value < multiple` — in particular for
`value ≤ 0` — it returns `multiple` itself, never 0 or negative. -/
theorem snap_dim_contract (v m : Int)
    (hm : m = 8 ∨ m = 16 ∨ m = 32 ∨ m = 64) :
    m ∣ snap_dim v m ∧ 0 < snap_dim v m ∧ m ≤ snap_dim v m ∧
    (v ≤ 0 → snap_dim v m = m) ∧
    (v < m → snap_dim v m = m) ∧
    (m ≤ v → snap_dim v m ≤ v ∧ v - snap_dim v m < m) := by
  have hm0 : 0 < m := by rcases hm with h1|h1|h1|h1 <;> omega
  refine ⟨snap_dim_dvd v m, lt_of_lt_of_le hm0 (le_snap_dim v m),
    le_snap_dim v m, ?_, ?_, ?_⟩
  · intro hv
    exact snap_dim_of_lt v m hm0 (lt_of_le_of_lt hv hm0)
  · intro hvm
    exact snap_dim_of_lt v m hm0 hvm
  · intro hmv
    exact ⟨snap_dim_le v m (lt_of_lt_of_le hm0 hmv) hm0 hmv,
      snap_dim_floor_dist v m hm0 hmv⟩

theorem snap_dim_contract_witness :
    (8:Int) ∣ snap_dim 100 8 ∧ 0 < snap_dim 100 8 ∧ (8:Int) ≤ snap_dim 100 8 ∧
    ((100:Int) ≤ 0 → snap_dim 100 8 = 8) ∧
    ((100:Int) < 8 → snap_dim 100 8 = 8) ∧
    ((8:Int) ≤ 100 → snap_dim 100 8 ≤ 100 ∧ 100 - snap_dim 100 8 < 8) :=
  snap_dim_contract 100 8 (Or.inl rfl)

/-- C10: `snap` is idempotent for every positive multiple: snapping an
already-snapped value changes nothing, because the first application yields
a positive multiple of `multiple` at least `multiple`. -/
theorem snap_dim_idempotent (v m : Int) (hm : 0 < m) :
    snap_dim (snap_dim v m) m = snap_dim v m := by
  obtain ⟨k, hk⟩ := snap_dim_dvd v m
  have hle : m ≤ snap_dim v m := le_snap_dim v m
  have hk1 : 1 ≤ k := by nlinarith [hle, hk, hm]
  have hpos : 0 < m * k := by rw [← hk]; exact lt_of_lt_of_le hm hle
  rw [hk]
  unfold snap_dim
  rw [if_neg (not_le.mpr hpos)]
  dsimp only
  rw [Int.mul_fdiv_cancel_left k (ne_of_gt hm)]
  rw [if_neg (not_lt.mpr (le_mul_of_one_le_left hm.le hk1))]
  exact mul_comm k m

theorem snap_dim_idempotent_witness :
    snap_dim (snap_dim 5 8) 8 = snap_dim 5 8 :=
  snap_dim_idempotent 5 8 (by decide)

/-- C5: for non-positive input dimensions, `calc` returns the original
`(w, h)` unchanged together with an info string containing
"Invalid image size" (totality of the embedding models absence of
exceptions). -/
theorem calc_invalid_input (w h : Int) (p s : String) (hwh : w ≤ 0 ∨ h ≤ 0) :
    «calc» w h p s = (w, h, "Invalid image size" ++ " – cannot calculate.") := by
  unfold «calc»
  rw [if_pos (Or.symm hwh)]
  rfl

theorem calc_invalid_input_witness :
    «calc» 0 7 ("p") ("s") = (0, 7, "Invalid image size" ++ " – cannot calculate.") :=
  calc_invalid_input 0 7 ("p") ("s") (Or.inl (by decide))

/-- C6: selecting suggestion rank 4 makes `suggestionTarget` return exactly
`scaleAndSnap(w, h, 0.5, multiple_of)`, for every input — the rank-4 branch
never consults the table. -/
theorem suggestion4_eq_half (w h m : Int) (hw : 0 < w) (hh : 0 < h)
    (hm : m = 8 ∨ m = 16 ∨ m = 32 ∨ m = 64) :
    get_suggestion_target w h m ("Resolution suggestion 4 (very low VRAM)") =
      scale_and_snap w h (1/2) m := by
  unfold get_suggestion_target
  dsimp only
  rw [if_pos (by decide)]

theorem suggestion4_eq_half_witness :
    get_suggestion_target 100 60 8 ("Resolution suggestion 4 (very low VRAM)") =
      scale_and_snap 100 60 (1/2) 8 :=
  suggestion4_eq_half 100 60 8 (by decide) (by decide) (Or.inl rfl)

/-- C7: when `(w, h)` is not a key of the static table, suggestion ranks 1,
2, 3 return exactly `scaleAndSnap` at scales 0.8, 0.7, 0.6 respectively. -/
theorem suggestion123_fallback (w h m : Int) (hw : 0 < w) (hh : 0 < h)
    (hm : m = 8 ∨ m = 16 ∨ m = 32 ∨ m = 64)
    (hnone : tableLookup w h = none) :
    get_suggestion_target w h m ("Resolution suggestion 1 (highest from table)") =
      scale_and_snap w h (8/10) m ∧
    get_suggestion_target w h m ("Resolution suggestion 2 (lower from table)") =
      scale_and_snap w h (7/10) m ∧
    get_suggestion_target w h m ("Resolution suggestion 3 (lowest from table)") =
      scale_and_snap w h (6/10) m := by
  refine ⟨?_, ?_, ?_⟩
  · unfold get_suggestion_target
    dsimp only
    rw [if_neg (by decide), hnone]
    dsimp only
    rw [if_pos (by decide)]
  · unfold get_suggestion_target
    dsimp only
    rw [if_neg (by decide), hnone]
    dsimp only
    rw [if_neg (by decide), if_pos (by decide)]
  · unfold get_suggestion_target
    dsimp only
    rw [if_neg (by decide), hnone]
    dsimp only
    rw [if_neg (by decide), if_neg (by decide), if_pos (by decide)]

theorem suggestion123_fallback_witness :
    get_suggestion_target 1234 987 16 ("Resolution suggestion 1 (highest from table)") =
      scale_and_snap 1234 987 (8/10) 16 ∧
    get_suggestion_target 1234 987 16 ("Resolution suggestion 2 (lower from table)") =
      scale_and_snap 1234 987 (7/10) 16 ∧
    get_suggestion_target 1234 987 16 ("Resolution suggestion 3 (lowest from table)") =
      scale_and_snap 1234 987 (6/10) 16 :=
  suggestion123_fallback 1234 987 16 (by decide) (by decide)
    (Or.inr (Or.inl rfl)) (by decide)

/-- C9: `resolveProfile` always returns one of the four `(multiple_of,
label)` pairs, and any selector matching none of the four `multiple_of:`
prefixes falls back to `(8, "SD / General (8)")` without failing. -/
theorem profile_fallback_total :
    (∀ s : String,
      profile_to_multiple s = (8, "SD / General (8)") ∨
      profile_to_multiple s = (16, "WAN 2.2 / Strict (16)") ∨
      profile_to_multiple s = (32, "Video / Advanced (32)") ∨
      profile_to_multiple s = (64, "Legacy / Extra Safe (64)")) ∧
    (∀ s : String,
      isPrefixL ("multiple_of: 8".toList) s.toList = false →
      isPrefixL ("multiple_of: 16".toList) s.toList = false →
      isPrefixL ("multiple_of: 32".toList) s.toList = false →
      isPrefixL ("multiple_of: 64".toList) s.toList = false →
      profile_to_multiple s = (8, "SD / General (8)")) := by
  constructor
  · intro s
    unfold profile_to_multiple
    split
    · exact Or.inl rfl
    · split
      · exact Or.inr (Or.inl rfl)
      · split
        · exact Or.inr (Or.inr (Or.inl rfl))
        · split
          · exact Or.inr (Or.inr (Or.inr rfl))
          · exact Or.inl rfl
  · intro s h8 h16 h32 h64
    unfold profile_to_multiple
    rw [if_neg (by rw [h8]; exact Bool.false_ne_true),
        if_neg (by rw [h16]; exact Bool.false_ne_true),
        if_neg (by rw [h32]; exact Bool.false_ne_true),
        if_neg (by rw [h64]; exact Bool.false_ne_true)]

theorem profile_fallback_total_witness :
    profile_to_multiple ("custom") = (8, "SD / General (8)") :=
  profile_fallback_total.2 ("custom") (by decide) (by decide) (by decide)
    (by decide)

theorem profile_to_multiple_mem (p : String) :
    (profile_to_multiple p).1 = 8 ∨ (profile_to_multiple p).1 = 16 ∨
    (profile_to_multiple p).1 = 32 ∨ (profile_to_multiple p).1 = 64 := by
  unfold profile_to_multiple
  split
  · exact Or.inl rfl
  · split
    · exact Or.inr (Or.inl rfl)
    · split
      · exact Or.inr (Or.inr (Or.inl rfl))
      · split
        · exact Or.inr (Or.inr (Or.inr rfl))
        · exact Or.inl rfl

theorem scale_and_snap_props (w h : Int) (s : ℚ) (m : Int) :
    m ∣ (scale_and_snap w h s m).1 ∧ m ≤ (scale_and_snap w h s m).1 ∧
    m ∣ (scale_and_snap w h s m).2.1 ∧ m ≤ (scale_and_snap w h s m).2.1 := by
  unfold scale_and_snap
  dsimp only
  refine ⟨?_, ?_, ?_, ?_⟩ <;> split <;>
    first
    | exact snap_dim_dvd _ _
    | exact le_snap_dim _ _

theorem get_suggestion_target_props (w h m : Int) (s : String) :
    m ∣ (get_suggestion_target w h m s).1 ∧
    m ≤ (get_suggestion_target w h m s).1 ∧
    m ∣ (get_suggestion_target w h m s).2.1 ∧
    m ≤ (get_suggestion_target w h m s).2.1 := by
  unfold get_suggestion_target
  dsimp only
  split
  · exact scale_and_snap_props w h (1/2) m
  · split
    · dsimp only
      refine ⟨?_, ?_, ?_, ?_⟩ <;> split <;> split <;>
        first
        | exact snap_dim_dvd _ _
        | exact le_snap_dim _ _
    · exact scale_and_snap_props w h _ m

theorem calc_core_props (w h m : Int) (s : String) :
    m ∣ (calc_core w h m s).1 ∧ m ≤ (calc_core w h m s).1 ∧
    m ∣ (calc_core w h m s).2.1 ∧ m ≤ (calc_core w h m s).2.1 := by
  unfold calc_core
  dsimp only
  split
  · dsimp only
    have hp := get_suggestion_target_props w h m s
    exact ⟨hp.1, hp.2.1, hp.2.2.1, hp.2.2.2⟩
  · dsimp only
    have hp := scale_and_snap_props w h (scale_from_percentage_preset s).2 m
    exact ⟨hp.1, hp.2.1, hp.2.2.1, hp.2.2.2⟩

/-- C4: for every valid input (w > 0, h > 0) and any selectors, the width
and height returned by `calc` are positive multiples of the resolved
granularity and at least one granularity unit. -/
theorem calc_dims_granularity (w h : Int) (p s : String)
    (hw : 0 < w) (hh : 0 < h) :
    0 < (profile_to_multiple p).1 ∧
    (profile_to_multiple p).1 ∣ («calc» w h p s).1 ∧
    (profile_to_multiple p).1 ≤ («calc» w h p s).1 ∧
    (profile_to_multiple p).1 ∣ («calc» w h p s).2.1 ∧
    (profile_to_multiple p).1 ≤ («calc» w h p s).2.1 := by
  have hm0 : 0 < (profile_to_multiple p).1 := by
    rcases profile_to_multiple_mem p with h1|h1|h1|h1 <;> omega
  refine ⟨hm0, ?_⟩
  unfold «calc»
  rw [if_neg (by omega : ¬ (h ≤ 0 ∨ w ≤ 0))]
  dsimp only
  exact calc_core_props w h (profile_to_multiple p).1 s

theorem calc_dims_granularity_witness :
    0 < (profile_to_multiple ("a")).1 ∧
    (profile_to_multiple ("a")).1 ∣ («calc» 100 50 ("a") ("b")).1 ∧
    (profile_to_multiple ("a")).1 ≤ («calc» 100 50 ("a") ("b")).1 ∧
    (profile_to_multiple ("a")).1 ∣ («calc» 100 50 ("a") ("b")).2.1 ∧
    (profile_to_multiple ("a")).1 ≤ («calc» 100 50 ("a") ("b")).2.1 :=
  calc_dims_granularity 100 50 ("a") ("b") (by decide) (by decide)

/-- C8, counterexample: the table entry for (3840, 2160) parses to five
suggested pairs, not at most three. -/
theorem c8_counterexample :
    tableLookup 3840 2160 =
      some ("2560x1440, 1920x1080, 1280x720, 960x540, 854x480") ∧
    (parse_res_list ("2560x1440, 1920x1080, 1280x720, 960x540, 854x480")).length = 5 ∧
    ¬ ((parse_res_list ("2560x1440, 1920x1080, 1280x720, 960x540, 854x480")).length ≤ 3) := by
  decide

/-- C8 (amended): every table entry parses to an ordered sequence of
between 3 and 5 suggested pairs, and the lookup matches exactly: any
(w, h) that is not a key yields no entries. -/
theorem table_shape_exact_lookup :
    (∀ e ∈ common_resolution_table,
      3 ≤ (parse_res_list e.2).length ∧ (parse_res_list e.2).length ≤ 5) ∧
    (∀ w h : Int, (∀ e ∈ common_resolution_table, e.1 ≠ (w, h)) →
      tableLookup w h = none) := by
  constructor
  · decide
  · intro w h hne
    unfold tableLookup
    have hf : common_resolution_table.reverse.find?
        (fun e => e.1.1 == w && e.1.2 == h) = none := by
      rw [List.find?_eq_none]
      intro e he hb
      apply hne e (List.mem_reverse.mp he)
      have hb1 : e.1.1 = w ∧ e.1.2 = h := by
        simpa [Bool.and_eq_true, beq_iff_eq] using hb
      exact Prod.ext_iff.mpr ⟨hb1.1, hb1.2⟩
    rw [hf]
    rfl

theorem table_shape_exact_lookup_witness : tableLookup 1 1 = none :=
  table_shape_exact_lookup.2 1 1 (by decide)

end TRSD
